import Mathlib

/-!
Shallow embedding of the monitoring panel's core:
  * `collect_system_metrics` (src/tasks.py): the sampler tick appending one
    record to the time-series store;
  * `get_metrics_history` (src/routers/system.py): the windowed history query
    with its rate derivation from cumulative byte counters;
  * `get_network_connections` (src/routers/network.py): the stateful
    connection-churn estimator.
Timestamps are modelled as rationals (seconds), cumulative byte counters as
naturals, Python `round(x, 2)` as rounding at two decimal places over `ℚ`,
and Python `int()` on a non-negative value as `Nat.floor`.
-/

attribute [local semireducible] Rat.add Rat.sub Rat.mul Rat.inv Rat.ofScientific

/-- A row of `SystemMetricsHistory` (src/models.py), as written by the sampler. -/
structure Sample where
  timestamp : ℚ
  cpu_percent : ℚ
  memory_used_mb : ℚ
  memory_total_mb : ℚ
  net_bytes_sent : ℕ
  net_bytes_recv : ℕ
  deriving DecidableEq

/-- Python `round(q, 2)`: round to two decimal places. -/
def round2 (q : ℚ) : ℚ := ((round (q * 100) : ℤ) : ℚ) / 100

/-- Timestamp order used by `order_by(SystemMetricsHistory.timestamp.asc())`. -/
def tsLE (a b : Sample) : Prop := a.timestamp ≤ b.timestamp

instance : DecidableRel tsLE :=
  fun a b => inferInstanceAs (Decidable (a.timestamp ≤ b.timestamp))

instance : IsTotal Sample tsLE := ⟨fun a b => le_total a.timestamp b.timestamp⟩

instance : IsTrans Sample tsLE := ⟨fun _ _ _ hab hbc => le_trans hab hbc⟩

/-- The per-element body of the rate loop in `get_metrics_history`
(src/routers/system.py lines 74-84): given the previous record and the current
one, produce the (sent, recv) speeds appended for the current index. -/
def rateStep (prev_r r : Sample) : ℚ × ℚ :=
  let time_diff := r.timestamp - prev_r.timestamp
  if 0 < time_diff then
    let s_diff : ℤ := max 0 ((r.net_bytes_sent : ℤ) - (prev_r.net_bytes_sent : ℤ))
    let r_diff : ℤ := max 0 ((r.net_bytes_recv : ℤ) - (prev_r.net_bytes_recv : ℤ))
    (round2 ((s_diff : ℚ) / time_diff), round2 ((r_diff : ℚ) / time_diff))
  else
    (0, 0)

/-- Tail of the speed lists: one `rateStep` per record after the first. -/
def netSpeedsAux (prev_r : Sample) : List Sample → List (ℚ × ℚ)
  | [] => []
  | r :: rs => rateStep prev_r r :: netSpeedsAux r rs

/-- The parallel (sent, recv) speed sequence built by the loop in
`get_metrics_history`: 0 for the first record, `rateStep` for each later one. -/
def netSpeeds : List Sample → List (ℚ × ℚ)
  | [] => []
  | r :: rs => (0, 0) :: netSpeedsAux r rs

/-- Result shape of `get_metrics_history` (the dict returned at lines 86-93 of
src/routers/system.py); ISO timestamp strings are modelled by the instants. -/
structure HistoryResult where
  timestamps : List ℚ
  cpu : List ℚ
  memory_used_mb : List ℚ
  net_sent_speed_bps : List ℚ
  net_recv_speed_bps : List ℚ
  memory_total_mb : ℚ
  deriving DecidableEq

/-- The loop and return value of `get_metrics_history` over the ordered record
list (src/routers/system.py lines 53-93): parallel arrays plus
`records[0].memory_total_mb if records else 0`. -/
def deriveHistory (records : List Sample) : HistoryResult :=
  { timestamps := records.map (fun r => r.timestamp)
    cpu := records.map (fun r => r.cpu_percent)
    memory_used_mb := records.map (fun r => round2 r.memory_used_mb)
    net_sent_speed_bps := (netSpeeds records).map Prod.fst
    net_recv_speed_bps := (netSpeeds records).map Prod.snd
    memory_total_mb := ((records.head?).map (fun r => r.memory_total_mb)).getD 0 }

/-- The query-building part of `get_metrics_history` (src/routers/system.py
lines 32-49).  A query-string argument is `none` when absent (`None` or empty),
`some none` when supplied but failing ISO-8601 parsing (`ValueError`), and
`some (some t)` when supplied and parsing to instant `t`.  On a parse failure
the `except ValueError: pass` leaves the query unfiltered and the `elif` branch
is not reached.  `order_by(timestamp.asc())` is modelled by a stable sort. -/
def queryRecords (minutes : ℕ) (now : ℚ) (start_time end_time : Option (Option ℚ))
    (db : List Sample) : List Sample :=
  let query :=
    match start_time, end_time with
    | some s, some e =>
      match s, e with
      | some start_dt, some end_dt =>
          db.filter (fun r => decide (start_dt ≤ r.timestamp ∧ r.timestamp ≤ end_dt))
      | _, _ => db
    | _, _ =>
        db.filter (fun r => decide (now - 60 * (minutes : ℚ) ≤ r.timestamp))
  List.insertionSort tsLE query

/-- `get_metrics_history` (src/routers/system.py lines 24-93): run the range
query, then derive the parallel output arrays. -/
def get_metrics_history (minutes : ℕ) (now : ℚ) (start_time end_time : Option (Option ℚ))
    (db : List Sample) : HistoryResult :=
  deriveHistory (queryRecords minutes now start_time end_time db)

/-- One read of the metrics source in `collect_system_metrics` (src/tasks.py):
each component is `none` when that psutil read fails (raises), otherwise the
values read (memory in bytes, counters in bytes). -/
structure SourceRead where
  cpu : Option ℚ
  mem : Option (ℚ × ℚ)
  net : Option (ℕ × ℕ)

/-- `collect_system_metrics` (src/tasks.py lines 6-38): on a fully successful
read, append one record; any failed read raises inside the `try`, is caught,
and the session is rolled back, leaving the store unchanged.  The exception is
swallowed (printed), so the function always returns normally. -/
def collect_system_metrics (src : SourceRead) (now : ℚ) (db : List Sample) :
    List Sample :=
  match src.cpu, src.mem, src.net with
  | some cpu_percent, some (mem_used, mem_total), some (bytes_sent, bytes_recv) =>
      db ++ [{ timestamp := now
               cpu_percent := cpu_percent
               memory_used_mb := mem_used / (1024 * 1024)
               memory_total_mb := mem_total / (1024 * 1024)
               net_bytes_sent := bytes_sent
               net_bytes_recv := bytes_recv }]
  | _, _, _ => db

/-- Connection states counted into the churn signature set
(src/routers/network.py line 72). -/
def churnStatusAllowList : List String :=
  ["ESTABLISHED", "TIME_WAIT", "CLOSE_WAIT", "SYN_SENT", "SYN_RECV"]

/-- One entry of `psutil.net_connections`: optional local/remote endpoint and a
status string. -/
structure Conn where
  laddr : Option (String × ℕ)
  raddr : Option (String × ℕ)
  status : String
  deriving DecidableEq

/-- Signature 4-tuple built at src/routers/network.py lines 73-78, with the
Python defaults for missing endpoints. -/
def connSig (c : Conn) : String × ℕ × String × ℕ :=
  (((c.laddr).map Prod.fst).getD "", ((c.laddr).map Prod.snd).getD 0,
   ((c.raddr).map Prod.fst).getD "", ((c.raddr).map Prod.snd).getD 0)

/-- `current_snapshot`: the set of signatures of churn-relevant connections
(src/routers/network.py lines 65-79). -/
def currentSnapshot (connections : List Conn) : Finset (String × ℕ × String × ℕ) :=
  ((connections.filter (fun c => decide (c.status ∈ churnStatusAllowList))).map connSig).toFinset

/-- The module-level mutable state `_last_connections_snapshot` /
`_last_snapshot_time` of src/routers/network.py. -/
structure ChurnState where
  last_connections_snapshot : Finset (String × ℕ × String × ℕ)
  last_snapshot_time : ℚ
  deriving DecidableEq

/-- Initial module state: `set()` and `0` (src/routers/network.py lines 14-15). -/
def churnInit : ChurnState := ⟨∅, 0⟩

/-- The dict returned by `get_network_connections`; `status_counts` is the
status-keyed tally dict as a counting function. -/
structure ConnectionsResult where
  status_counts : String → ℕ
  total_connections : ℕ
  new_per_3s : ℕ
  closed_per_3s : ℕ

/-- `get_network_connections` (src/routers/network.py lines 49-109), with the
global state passed and returned explicitly.  Rates are computed only when
`1 < time_diff < 10` and the previous snapshot set is non-empty (Python
truthiness of `_last_connections_snapshot`); the state is replaced
unconditionally afterwards. -/
def get_network_connections (state : ChurnState) (connections : List Conn)
    (current_time : ℚ) : ChurnState × ConnectionsResult :=
  let current_snapshot := currentSnapshot connections
  let time_diff := current_time - state.last_snapshot_time
  let counts : ℕ × ℕ :=
    if 1 < time_diff ∧ time_diff < 10 ∧ state.last_connections_snapshot ≠ ∅ then
      let new_conns := (current_snapshot \ state.last_connections_snapshot).card
      let closed_conns := (state.last_connections_snapshot \ current_snapshot).card
      let rate_multiplier : ℚ := 3 / time_diff
      (Nat.floor ((new_conns : ℚ) * rate_multiplier),
       Nat.floor ((closed_conns : ℚ) * rate_multiplier))
    else
      (0, 0)
  (⟨current_snapshot, current_time⟩,
   { status_counts := fun st => connections.countP (fun c => c.status == st)
     total_connections := connections.length
     new_per_3s := counts.1
     closed_per_3s := counts.2 })

/-! ### Helper lemmas about the rate derivation -/

theorem netSpeedsAux_length (prev_r : Sample) (l : List Sample) :
    (netSpeedsAux prev_r l).length = l.length := by
  induction l generalizing prev_r with
  | nil => rfl
  | cons r rs ih => simp [netSpeedsAux, ih]

theorem netSpeeds_length (l : List Sample) : (netSpeeds l).length = l.length := by
  cases l with
  | nil => rfl
  | cons r rs => simp [netSpeeds, netSpeedsAux_length]

theorem netSpeedsAux_getElem (prev_r : Sample) (l : List Sample) (i : ℕ) :
    (netSpeedsAux prev_r l)[i]? =
      ((prev_r :: l)[i]?).bind (fun p => (l[i]?).map (fun r => rateStep p r)) := by
  induction l generalizing prev_r i with
  | nil => simp [netSpeedsAux]
  | cons r rs ih =>
    cases i with
    | zero => simp [netSpeedsAux]
    | succ j => simpa [netSpeedsAux] using ih r j

theorem netSpeeds_getElem_succ (l : List Sample) (i : ℕ) (p r : Sample)
    (hp : l[i]? = some p) (hr : l[i + 1]? = some r) :
    (netSpeeds l)[i + 1]? = some (rateStep p r) := by
  cases l with
  | nil => simp at hp
  | cons a as =>
    have : (netSpeeds (a :: as))[i + 1]? = (netSpeedsAux a as)[i]? := by
      simp [netSpeeds]
    rw [this, netSpeedsAux_getElem, hp]
    have hr' : as[i]? = some r := by simpa using hr
    simp [hr']

theorem rateStep_of_nonpos (p r : Sample) (h : r.timestamp - p.timestamp ≤ 0) :
    rateStep p r = (0, 0) := by
  unfold rateStep
  rw [if_neg (not_lt.mpr h)]

theorem rateStep_fst_of_mono (p r : Sample) (hdt : 0 < r.timestamp - p.timestamp)
    (hmono : p.net_bytes_sent ≤ r.net_bytes_sent) :
    (rateStep p r).1 =
      round2 (((r.net_bytes_sent : ℚ) - (p.net_bytes_sent : ℚ)) /
        (r.timestamp - p.timestamp)) := by
  unfold rateStep
  rw [if_pos hdt]
  have h1 : max 0 ((r.net_bytes_sent : ℤ) - (p.net_bytes_sent : ℤ)) =
      (r.net_bytes_sent : ℤ) - (p.net_bytes_sent : ℤ) :=
    max_eq_right (sub_nonneg.mpr (Int.ofNat_le.mpr hmono))
  simp only [h1]
  push_cast
  rfl

theorem rateStep_snd_of_mono (p r : Sample) (hdt : 0 < r.timestamp - p.timestamp)
    (hmono : p.net_bytes_recv ≤ r.net_bytes_recv) :
    (rateStep p r).2 =
      round2 (((r.net_bytes_recv : ℚ) - (p.net_bytes_recv : ℚ)) /
        (r.timestamp - p.timestamp)) := by
  unfold rateStep
  rw [if_pos hdt]
  have h1 : max 0 ((r.net_bytes_recv : ℤ) - (p.net_bytes_recv : ℤ)) =
      (r.net_bytes_recv : ℤ) - (p.net_bytes_recv : ℤ) :=
    max_eq_right (sub_nonneg.mpr (Int.ofNat_le.mpr hmono))
  simp only [h1]
  push_cast
  rfl

theorem rateStep_fst_of_reset (p r : Sample) (hdt : 0 < r.timestamp - p.timestamp)
    (hreset : r.net_bytes_sent < p.net_bytes_sent) :
    (rateStep p r).1 = 0 := by
  unfold rateStep
  rw [if_pos hdt]
  have h1 : max 0 ((r.net_bytes_sent : ℤ) - (p.net_bytes_sent : ℤ)) = 0 :=
    max_eq_left (le_of_lt (sub_neg.mpr (Int.ofNat_lt.mpr hreset)))
  simp [h1, round2]

theorem rateStep_snd_of_reset (p r : Sample) (hdt : 0 < r.timestamp - p.timestamp)
    (hreset : r.net_bytes_recv < p.net_bytes_recv) :
    (rateStep p r).2 = 0 := by
  unfold rateStep
  rw [if_pos hdt]
  have h1 : max 0 ((r.net_bytes_recv : ℤ) - (p.net_bytes_recv : ℤ)) = 0 :=
    max_eq_left (le_of_lt (sub_neg.mpr (Int.ofNat_lt.mpr hreset)))
  simp [h1, round2]

/-- C1: for every ascending-by-timestamp input sequence, the rate derivation of
`get_metrics_history` produces five output sequences each of the input's
length; the derived rates at index 0 are 0; for every index `i ≥ 1`, if
`dt = timestamp[i] - timestamp[i-1] ≤ 0` both rates at `i` are 0, and if
`dt > 0` and the counters are non-decreasing at `i` the rates at `i` equal
`round(diff / dt, 2)`; a single-element input yields rate sequences `[0]`. -/
theorem rate_derivation_correct (records : List Sample)
    (hasc : List.Sorted tsLE records) :
    ((deriveHistory records).timestamps.length = records.length ∧
     (deriveHistory records).cpu.length = records.length ∧
     (deriveHistory records).memory_used_mb.length = records.length ∧
     (deriveHistory records).net_sent_speed_bps.length = records.length ∧
     (deriveHistory records).net_recv_speed_bps.length = records.length) ∧
    (records ≠ [] →
       (deriveHistory records).net_sent_speed_bps[0]? = some 0 ∧
       (deriveHistory records).net_recv_speed_bps[0]? = some 0) ∧
    (∀ i p r, records[i]? = some p → records[i + 1]? = some r →
       (r.timestamp - p.timestamp ≤ 0 →
          (deriveHistory records).net_sent_speed_bps[i + 1]? = some 0 ∧
          (deriveHistory records).net_recv_speed_bps[i + 1]? = some 0) ∧
       (0 < r.timestamp - p.timestamp →
          (p.net_bytes_sent ≤ r.net_bytes_sent →
             (deriveHistory records).net_sent_speed_bps[i + 1]? =
               some (round2 (((r.net_bytes_sent : ℚ) - (p.net_bytes_sent : ℚ)) /
                 (r.timestamp - p.timestamp)))) ∧
          (p.net_bytes_recv ≤ r.net_bytes_recv →
             (deriveHistory records).net_recv_speed_bps[i + 1]? =
               some (round2 (((r.net_bytes_recv : ℚ) - (p.net_bytes_recv : ℚ)) /
                 (r.timestamp - p.timestamp)))))) ∧
    (records.length = 1 →
       (deriveHistory records).net_sent_speed_bps = [0] ∧
       (deriveHistory records).net_recv_speed_bps = [0]) := by
  refine ⟨?_, ?_, ?_, ?_⟩
  · simp [deriveHistory, netSpeeds_length]
  · intro hne
    cases records with
    | nil => exact absurd rfl hne
    | cons a as => simp [deriveHistory, netSpeeds]
  · intro i p r hp hr
    have hstep : (netSpeeds records)[i + 1]? = some (rateStep p r) :=
      netSpeeds_getElem_succ records i p r hp hr
    refine ⟨?_, ?_⟩
    · intro hdt
      have h0 : rateStep p r = (0, 0) := rateStep_of_nonpos p r hdt
      constructor
      · simp [deriveHistory, List.getElem?_map, hstep, h0]
      · simp [deriveHistory, List.getElem?_map, hstep, h0]
    · intro hdt
      constructor
      · intro hmono
        have := rateStep_fst_of_mono p r hdt hmono
        simp [deriveHistory, List.getElem?_map, hstep, this]
      · intro hmono
        have := rateStep_snd_of_mono p r hdt hmono
        simp [deriveHistory, List.getElem?_map, hstep, this]
  · intro hlen
    obtain ⟨a, rfl⟩ := List.length_eq_one.mp hlen
    constructor
    · simp [deriveHistory, netSpeeds, netSpeedsAux]
    · simp [deriveHistory, netSpeeds, netSpeedsAux]

/-- Witness for C1 at a concrete two-sample input: 1000 bytes sent and 500
bytes received over 2 seconds give rates 500 and 250. -/
theorem rate_derivation_correct_witness :
    ((deriveHistory [⟨0, 50, 100, 200, 0, 0⟩, ⟨2, 60, 110, 200, 1000, 500⟩]).net_sent_speed_bps[0 + 1]? =
       some (round2 ((((1000:ℕ) : ℚ) - ((0:ℕ) : ℚ)) / ((2:ℚ) - 0)))) ∧
    round2 ((((1000:ℕ) : ℚ) - ((0:ℕ) : ℚ)) / ((2:ℚ) - 0)) = 500 := by
  have h := rate_derivation_correct
    [⟨0, 50, 100, 200, 0, 0⟩, ⟨2, 60, 110, 200, 1000, 500⟩] (by decide)
  have h2 := (((h.2.2.1 0 ⟨0, 50, 100, 200, 0, 0⟩ ⟨2, 60, 110, 200, 1000, 500⟩
    (by decide) (by decide)).2 (by decide)).1 (by decide))
  exact ⟨h2, by decide⟩

/-- C7: at every index `i ≥ 1` where a cumulative counter resets
(`counter[i] < counter[i-1]`) while `dt > 0`, the derived rate at `i` for that
direction is exactly 0 (hence never negative). -/
theorem counter_reset_rate_zero (records : List Sample) (i : ℕ) (p r : Sample)
    (hp : records[i]? = some p) (hr : records[i + 1]? = some r)
    (hdt : 0 < r.timestamp - p.timestamp) :
    (r.net_bytes_sent < p.net_bytes_sent →
       (deriveHistory records).net_sent_speed_bps[i + 1]? = some 0) ∧
    (r.net_bytes_recv < p.net_bytes_recv →
       (deriveHistory records).net_recv_speed_bps[i + 1]? = some 0) := by
  have hstep : (netSpeeds records)[i + 1]? = some (rateStep p r) :=
    netSpeeds_getElem_succ records i p r hp hr
  constructor
  · intro hreset
    have := rateStep_fst_of_reset p r hdt hreset
    simp [deriveHistory, List.getElem?_map, hstep, this]
  · intro hreset
    have := rateStep_snd_of_reset p r hdt hreset
    simp [deriveHistory, List.getElem?_map, hstep, this]

/-- Witness for C7: a sent-counter reset from 5000 down to 10 over a positive
interval yields a derived sent rate of exactly 0. -/
theorem counter_reset_rate_zero_witness :
    (deriveHistory [⟨0, 0, 0, 0, 5000, 0⟩, ⟨3, 0, 0, 0, 10, 0⟩]).net_sent_speed_bps[0 + 1]? =
      some 0 :=
  (counter_reset_rate_zero [⟨0, 0, 0, 0, 5000, 0⟩, ⟨3, 0, 0, 0, 10, 0⟩] 0
    ⟨0, 0, 0, 0, 5000, 0⟩ ⟨3, 0, 0, 0, 10, 0⟩ (by decide) (by decide) (by decide)).1
    (by decide)

/-- C2 counterexample: with both bounds supplied but the start unparseable,
the query returns the sample at instant 0 (the filter is dropped entirely),
while the trailing-60-minutes query from `now = 10000` excludes it, so the two
results differ. -/
theorem parse_fallback_counterexample :
    get_metrics_history 60 10000 (some none) (some (some 1)) [⟨0, 0, 0, 0, 0, 0⟩] ≠
      get_metrics_history 60 10000 none none [⟨0, 0, 0, 0, 0, 0⟩] := by decide

/-- C2 amended: when both bounds are supplied and at least one fails to parse,
`get_metrics_history` applies no time filter at all — the result is the
derivation over every stored sample, not over the trailing 60-minute window. -/
theorem parse_failure_returns_all (minutes : ℕ) (now : ℚ) (s e : Option ℚ)
    (db : List Sample) (h : s = none ∨ e = none) :
    get_metrics_history minutes now (some s) (some e) db =
      deriveHistory (List.insertionSort tsLE db) := by
  rcases h with h | h
  · subst h; cases e <;> rfl
  · subst h; cases s <;> rfl

/-- Witness for C2's amended claim at a concrete store and failing window. -/
theorem parse_failure_returns_all_witness :
    get_metrics_history 60 10000 (some none) (some (some 1)) [⟨0, 0, 0, 0, 0, 0⟩] =
      deriveHistory (List.insertionSort tsLE [⟨0, 0, 0, 0, 0, 0⟩]) :=
  parse_failure_returns_all 60 10000 none (some 1) [⟨0, 0, 0, 0, 0, 0⟩] (Or.inl rfl)

/-- C10: when exactly one of the two explicit bounds is supplied, it is
ignored and the result equals the trailing-minutes query with the given
`minutes` parameter. -/
theorem single_bound_ignored (minutes : ℕ) (now : ℚ) (v : Option ℚ)
    (db : List Sample) :
    (get_metrics_history minutes now (some v) none db =
       get_metrics_history minutes now none none db) ∧
    (get_metrics_history minutes now none (some v) db =
       get_metrics_history minutes now none none db) := by
  constructor
  · cases v <;> rfl
  · rfl

/-- C8: with a well-formed explicit window every returned sample lies in
`[start, end]`; with only `minutes` every returned sample has
`timestamp ≥ now - minutes`; in both cases the returned sequence is ascending
by timestamp and contains every stored sample in the window. -/
theorem range_query_window (minutes : ℕ) (now start_dt end_dt : ℚ)
    (db : List Sample) :
    (∀ s ∈ queryRecords minutes now (some (some start_dt)) (some (some end_dt)) db,
       start_dt ≤ s.timestamp ∧ s.timestamp ≤ end_dt) ∧
    List.Sorted tsLE
      (queryRecords minutes now (some (some start_dt)) (some (some end_dt)) db) ∧
    (∀ s ∈ db, start_dt ≤ s.timestamp → s.timestamp ≤ end_dt →
       s ∈ queryRecords minutes now (some (some start_dt)) (some (some end_dt)) db) ∧
    (∀ s ∈ queryRecords minutes now none none db,
       now - 60 * (minutes : ℚ) ≤ s.timestamp) ∧
    List.Sorted tsLE (queryRecords minutes now none none db) ∧
    (∀ s ∈ db, now - 60 * (minutes : ℚ) ≤ s.timestamp →
       s ∈ queryRecords minutes now none none db) := by
  have hex : queryRecords minutes now (some (some start_dt)) (some (some end_dt)) db =
      List.insertionSort tsLE
        (db.filter (fun r => decide (start_dt ≤ r.timestamp ∧ r.timestamp ≤ end_dt))) := rfl
  have htr : queryRecords minutes now none none db =
      List.insertionSort tsLE
        (db.filter (fun r => decide (now - 60 * (minutes : ℚ) ≤ r.timestamp))) := rfl
  refine ⟨?_, ?_, ?_, ?_, ?_, ?_⟩
  · intro s hs
    rw [hex, List.mem_insertionSort, List.mem_filter] at hs
    exact of_decide_eq_true hs.2
  · rw [hex]
    exact List.sorted_insertionSort tsLE _
  · intro s hs h1 h2
    rw [hex, List.mem_insertionSort, List.mem_filter]
    exact ⟨hs, decide_eq_true ⟨h1, h2⟩⟩
  · intro s hs
    rw [htr, List.mem_insertionSort, List.mem_filter] at hs
    exact of_decide_eq_true hs.2
  · rw [htr]
    exact List.sorted_insertionSort tsLE _
  · intro s hs h1
    rw [htr, List.mem_insertionSort, List.mem_filter]
    exact ⟨hs, decide_eq_true h1⟩

/-- Witness for C8: the sample at instant 5 is returned by the explicit
window [0, 10] and its timestamp satisfies the bounds. -/
theorem range_query_window_witness :
    (⟨5, 1, 2, 3, 4, 5⟩ : Sample) ∈
      queryRecords 60 0 (some (some 0)) (some (some 10)) [⟨5, 1, 2, 3, 4, 5⟩] ∧
    ((0 : ℚ) ≤ 5 ∧ (5 : ℚ) ≤ 10) := by
  have h := range_query_window 60 0 0 10 [⟨5, 1, 2, 3, 4, 5⟩]
  have hmem := h.2.2.1 ⟨5, 1, 2, 3, 4, 5⟩ (by decide) (by decide) (by decide)
  exact ⟨hmem, h.1 ⟨5, 1, 2, 3, 4, 5⟩ hmem⟩

/-- C3 counterexample: with two stored samples whose total-memory values are
100 and 200 (oldest first), the returned `memory_total_mb` is not 200, the
value of the most recent sample — the code takes `records[0]`, the oldest. -/
theorem memory_total_counterexample :
    (get_metrics_history 60 0 none none
       [⟨0, 0, 0, 100, 0, 0⟩, ⟨10, 0, 0, 200, 0, 0⟩]).memory_total_mb ≠ 200 := by
  decide

/-- C3 amended: for a store ascending by timestamp whose samples all lie in
the trailing window, `memory_total_mb` equals the total-memory value of the
FIRST (oldest) returned sample, and 0 for an empty store. -/
theorem memory_total_from_first (minutes : ℕ) (now : ℚ) (db : List Sample)
    (hsorted : List.Sorted tsLE db)
    (hwin : ∀ s ∈ db, now - 60 * (minutes : ℚ) ≤ s.timestamp) :
    (get_metrics_history minutes now none none db).memory_total_mb =
      ((db.head?).map (fun r => r.memory_total_mb)).getD 0 := by
  have hfilter : db.filter (fun r => decide (now - 60 * (minutes : ℚ) ≤ r.timestamp)) = db :=
    List.filter_eq_self.mpr (fun s hs => decide_eq_true (hwin s hs))
  have hq : queryRecords minutes now none none db =
      List.insertionSort tsLE
        (db.filter (fun r => decide (now - 60 * (minutes : ℚ) ≤ r.timestamp))) := rfl
  rw [get_metrics_history, hq, hfilter, hsorted.insertionSort_eq]
  rfl

/-- Witness for C3's amended claim: totals 100 then 200 give result 100. -/
theorem memory_total_from_first_witness :
    (get_metrics_history 60 20 none none
       [⟨0, 0, 0, 100, 0, 0⟩, ⟨10, 0, 0, 200, 0, 0⟩]).memory_total_mb = 100 := by
  have h := memory_total_from_first 60 20
    [⟨0, 0, 0, 100, 0, 0⟩, ⟨10, 0, 0, 200, 0, 0⟩] (by decide) (by decide)
  exact h.trans (by decide)

/-- An ESTABLISHED connection used in concrete churn scenarios. -/
def connA : Conn := ⟨some ("10.0.0.1", 1000), some ("10.0.0.2", 80), "ESTABLISHED"⟩

/-- A second ESTABLISHED connection (different local port). -/
def connB : Conn := ⟨some ("10.0.0.1", 1001), some ("10.0.0.2", 80), "ESTABLISHED"⟩

/-- A third ESTABLISHED connection (different local port). -/
def connC : Conn := ⟨some ("10.0.0.1", 1002), some ("10.0.0.2", 80), "ESTABLISHED"⟩

/-- C5 counterexample: a tick whose network-counter read fails (cpu 17%, memory
1 MB of 2 MB read fine) appends nothing at all — the store stays empty — rather
than appending the zero-substituted sample the claim requires. -/
theorem partial_failure_counterexample :
    collect_system_metrics ⟨some 17, some (1048576, 2097152), none⟩ 5 [] ≠
        [⟨5, 17, 1, 2, 0, 0⟩] ∧
      collect_system_metrics ⟨some 17, some (1048576, 2097152), none⟩ 5 [] = [] := by
  constructor
  · decide
  · rfl

/-- C5 amended: when any part of the metrics read fails, the tick appends no
sample at all — the store is left unchanged (rollback) — and the failure is
still never surfaced as a fault to the caller (the function returns normally). -/
theorem partial_failure_skips_tick (src : SourceRead) (now : ℚ) (db : List Sample)
    (h : src.cpu = none ∨ src.mem = none ∨ src.net = none) :
    collect_system_metrics src now db = db := by
  obtain ⟨c, m, n⟩ := src
  cases c with
  | none => rfl
  | some cv =>
    cases m with
    | none => rfl
    | some p =>
      obtain ⟨mu, mt⟩ := p
      cases n with
      | none => rfl
      | some q =>
        obtain ⟨ns, nr⟩ := q
        exfalso
        rcases h with h | h | h <;> simp at h

/-- Witness for C5's amended claim: a failed cpu read leaves the store as it
was. -/
theorem partial_failure_skips_tick_witness :
    collect_system_metrics ⟨none, some (1, 2), some (3, 4)⟩ 7 [⟨0, 0, 0, 0, 0, 0⟩] =
      [⟨0, 0, 0, 0, 0, 0⟩] :=
  partial_failure_skips_tick ⟨none, some (1, 2), some (3, 4)⟩ 7 [⟨0, 0, 0, 0, 0, 0⟩]
    (Or.inl rfl)

/-- C6: every churn observation unconditionally replaces the stored state with
the current filtered signature set and the current observation time, whether or
not a rate was reported. -/
theorem churn_state_unconditionally_replaced (state : ChurnState)
    (connections : List Conn) (current_time : ℚ) :
    (get_network_connections state connections current_time).1 =
      ⟨currentSnapshot connections, current_time⟩ := rfl

/-- C9: whenever the stored previous signature set is empty, both reported
rates are 0, even if the elapsed time is inside the (1, 10) band and the
current signature set is non-empty. -/
theorem empty_baseline_reports_zero (state : ChurnState) (connections : List Conn)
    (current_time : ℚ) (h : state.last_connections_snapshot = ∅) :
    (get_network_connections state connections current_time).2.new_per_3s = 0 ∧
    (get_network_connections state connections current_time).2.closed_per_3s = 0 := by
  have hneg : ¬(1 < current_time - state.last_snapshot_time ∧
      current_time - state.last_snapshot_time < 10 ∧
      state.last_connections_snapshot ≠ ∅) := fun hc => hc.2.2 h
  constructor <;>
    · simp only [get_network_connections]
      rw [if_neg hneg]

/-- Witness for C9: empty stored set, elapsed 2 seconds (inside the band), one
current ESTABLISHED connection — both rates are still 0. -/
theorem empty_baseline_reports_zero_witness :
    (get_network_connections ⟨∅, 0⟩ [connA] 2).2.new_per_3s = 0 ∧
    (get_network_connections ⟨∅, 0⟩ [connA] 2).2.closed_per_3s = 0 :=
  empty_baseline_reports_zero ⟨∅, 0⟩ [connA] 2 rfl

/-- C4 counterexample: a first observation at t = 10 sees no connections; a
second observation at t = 12 (elapsed 2 s, inside the band, not the first
observation ever) sees one ESTABLISHED connection.  The code reports 0 new
connections while the claim's formula `int(|current - last| * 3.0 / elapsed)`
gives 1, because the code additionally requires the previous set to be
non-empty. -/
theorem churn_formula_counterexample :
    (get_network_connections ((get_network_connections churnInit [] 10).1)
        [connA] 12).2.new_per_3s = 0 ∧
    Nat.floor (((currentSnapshot [connA] \
        ((get_network_connections churnInit [] 10).1).last_connections_snapshot).card : ℚ) *
      (3 / ((12 : ℚ) - ((get_network_connections churnInit [] 10).1).last_snapshot_time))) =
      1 := by
  constructor <;> decide

/-- C4 amended: when the call is not the first, `1 < elapsed < 10`, AND the
stored previous signature set is non-empty, the reported counts are the
truncated scaled set-difference cardinalities; in every other case (elapsed out
of band, first call, or empty stored set) both counts are 0. -/
theorem churn_rates (state : ChurnState) (connections : List Conn)
    (current_time : ℚ) :
    ((1 < current_time - state.last_snapshot_time ∧
      current_time - state.last_snapshot_time < 10 ∧
      state.last_connections_snapshot ≠ ∅) →
       (get_network_connections state connections current_time).2.new_per_3s =
         Nat.floor (((currentSnapshot connections \
             state.last_connections_snapshot).card : ℚ) *
           (3 / (current_time - state.last_snapshot_time))) ∧
       (get_network_connections state connections current_time).2.closed_per_3s =
         Nat.floor (((state.last_connections_snapshot \
             currentSnapshot connections).card : ℚ) *
           (3 / (current_time - state.last_snapshot_time)))) ∧
    (¬(1 < current_time - state.last_snapshot_time ∧
       current_time - state.last_snapshot_time < 10 ∧
       state.last_connections_snapshot ≠ ∅) →
       (get_network_connections state connections current_time).2.new_per_3s = 0 ∧
       (get_network_connections state connections current_time).2.closed_per_3s = 0) := by
  constructor
  · intro hc
    constructor <;>
      · simp only [get_network_connections]
        rw [if_pos hc]
  · intro hc
    constructor <;>
      · simp only [get_network_connections]
        rw [if_neg hc]

/-- Witness for C4's amended claim, matching the spec's worked example:
last = {A, B}, current = {A, C}, elapsed 1.5 s, rates 2 and 2. -/
theorem churn_rates_witness :
    (get_network_connections ⟨currentSnapshot [connA, connB], 0⟩ [connA, connC]
        (3 / 2)).2.new_per_3s = 2 ∧
    (get_network_connections ⟨currentSnapshot [connA, connB], 0⟩ [connA, connC]
        (3 / 2)).2.closed_per_3s = 2 := by
  have h := (churn_rates ⟨currentSnapshot [connA, connB], 0⟩ [connA, connC]
    (3 / 2)).1 (by decide)
  exact ⟨h.1.trans (by decide), h.2.trans (by decide)⟩
